import Mathlib

/-!
Verification development for the coastal-inundation economic-impact app
(src/app.py). The core logic modelled here, with the corresponding source
lines of the single-file Streamlit program:

* cascading candidate lists (lines 48, 54, 64): states, counties,
  inundation_types;
* record resolution (lines 75 to 79): selection_rows, selection_data;
* numeric extraction of the resolved row (lines 82 to 88): extractInputs;
* impact figures (lines 91 to 94): computeImpact;
* industry table loop (lines 117 to 124): table_rows;
* asset-name derivation (lines 98, 166 to 170): display_county,
  state_abbreviations, state_abbr, slosh_cat_num, image_name.

The Python program computes its figures in IEEE-754 double arithmetic
(int / int true division, float multiplication, and the built-in round).
That arithmetic is modelled exactly: every number is carried as an exact
unnormalized fraction of integers (Frac), and floatRound rounds a fraction
to the exact value of the nearest double (53 significant bits, round to
nearest, ties to even), for values whose binary exponent lies in -200..200,
which covers every quantity of this dataset domain by a wide margin
(no overflow, no subnormals). Missing cells and missing columns of the
CSV are both modelled as Option none; pandas read_csv parses empty cells
as NA, so an absent or empty cell and an absent column alike surface as
none here, and the int(...) conversions of the source fail on them, which
the model renders as Except.error.
-/

/-- An exact rational as an unnormalized fraction of integers. All values built in
this development keep the denominator positive. Used for the exact values of the
Python floats flowing through the program. -/
structure Frac where
  num : ℤ
  den : ℤ
deriving DecidableEq

/-- Value equality of fractions by cross multiplication (valid for positive
denominators, which all fractions of this development have). -/
def eqF (a b : Frac) : Prop := a.num * b.den = b.num * a.den

instance (a b : Frac) : Decidable (eqF a b) :=
  inferInstanceAs (Decidable (a.num * b.den = b.num * a.den))

/-- Value order on fractions with positive denominators. -/
def leF (a b : Frac) : Prop := a.num * b.den ≤ b.num * a.den

instance (a b : Frac) : Decidable (leF a b) :=
  inferInstanceAs (Decidable (a.num * b.den ≤ b.num * a.den))

/-- Exact product of two fractions. -/
def mulF (a b : Frac) : Frac := ⟨a.num * b.num, a.den * b.den⟩

/-- Negation of a fraction. -/
def negF (a : Frac) : Frac := ⟨-a.num, a.den⟩

/-- Exact quotient a / b of two fractions, the sign moved into the numerator. -/
def divF (a b : Frac) : Frac :=
  if b.num < 0 then ⟨-(a.num * b.den), a.den * (-b.num)⟩ else ⟨a.num * b.den, a.den * b.num⟩

/-- Power of two as a fraction. -/
def pow2F (z : ℤ) : Frac :=
  if 0 ≤ z then ⟨((2 ^ z.toNat : ℕ) : ℤ), 1⟩ else ⟨1, ((2 ^ (-z).toNat : ℕ) : ℤ)⟩

/-- Round an exact fraction with positive denominator to the nearest integer,
ties to even. This is the rounding of IEEE-754 round-to-nearest and also of the
Python built-in round on an exactly represented value. -/
def rndTiesEven (f : Frac) : ℤ :=
  if 2 * (f.num - f.num.fdiv f.den * f.den) < f.den then f.num.fdiv f.den
  else if f.den < 2 * (f.num - f.num.fdiv f.den * f.den) then f.num.fdiv f.den + 1
  else if f.num.fdiv f.den % 2 = 0 then f.num.fdiv f.den else f.num.fdiv f.den + 1

/-- Binary search step for the binary exponent of a positive fraction. -/
def ilogGo : ℕ → ℤ → ℤ → Frac → ℤ
  | 0, lo, _, _ => lo
  | n + 1, lo, hi, f =>
    if hi ≤ lo then lo
    else
      if leF (pow2F ((lo + hi + 1).fdiv 2)) f then ilogGo n ((lo + hi + 1).fdiv 2) hi f
      else ilogGo n lo ((lo + hi + 1).fdiv 2 - 1) f

/-- Binary exponent of a positive fraction in the magnitude range of this
development: the unique e with 2^e ≤ f < 2^(e+1), found by binary search over
exponents -200..200. -/
def ilog2F (f : Frac) : ℤ := ilogGo 16 (-200) 200 f

/-- Round a positive fraction to 53 significant bits, round to nearest, ties to
even: the exact value of the IEEE-754 double nearest to it, for the normal
non-overflowing range handled here. -/
def floatScale (f : Frac) : Frac :=
  if ilog2F f ≤ 52 then
    ⟨rndTiesEven (mulF f (pow2F (52 - ilog2F f))), ((2 ^ (52 - ilog2F f).toNat : ℕ) : ℤ)⟩
  else
    ⟨rndTiesEven (mulF f (pow2F (52 - ilog2F f))) * ((2 ^ (ilog2F f - 52).toNat : ℕ) : ℤ), 1⟩

/-- Exact value of the IEEE-754 double nearest to the fraction f. -/
def floatRound (f : Frac) : Frac :=
  if f.num = 0 then ⟨0, 1⟩ else if f.num < 0 then negF (floatScale (negF f)) else floatScale f

/-- Exact value of the Python float product a * b of two exactly held doubles. -/
def floatMul (a b : Frac) : Frac := floatRound (mulF a b)

/-- Exact value of the Python float division a / b of two exactly held doubles. -/
def floatDiv (a b : Frac) : Frac := floatRound (divF a b)

/-- Exact value of the Python true division a / b of two machine integers,
which CPython rounds correctly to the nearest double. -/
def intDivFloat (a b : ℤ) : Frac := floatRound (divF ⟨a, 1⟩ ⟨b, 1⟩)

/-- The Python round(x) of a float with exact value x: nearest integer, ties to
even, as an int. -/
def pyRound0 (x : Frac) : ℤ := rndTiesEven x

/-- The Python round(x, 1) of a float with exact value x: the double nearest to
the multiple of 1/10 closest to x, ties on the multiple count to even. -/
def pyRound1 (x : Frac) : Frac := floatRound ⟨rndTiesEven (mulF x ⟨10, 1⟩), 10⟩

/-- Value equality on optional fractions; none models the NaN that pandas
yields for a missing float cell and that flows through untouched. -/
def optEqF : Option Frac → Option Frac → Prop
  | none, none => True
  | some a, some b => eqF a b
  | none, some _ => False
  | some _, none => False

instance : (a b : Option Frac) → Decidable (optEqF a b)
  | none, none => Decidable.isTrue trivial
  | some a, some b => inferInstanceAs (Decidable (eqF a b))
  | none, some _ => Decidable.isFalse id
  | some _, none => Decidable.isFalse id

/-- Code-point comparison of character lists, the lexicographic order the Python
sorted builtin uses on strings. -/
def strLeAux : List Char → List Char → Bool
  | [], _ => true
  | _ :: _, [] => false
  | a :: as, b :: bs =>
    if a.toNat < b.toNat then true
    else if b.toNat < a.toNat then false
    else strLeAux as bs

/-- Lexicographic code-point order on strings, as compared by the Python sorted
builtin. -/
def strLe (a b : String) : Bool := strLeAux a.data b.data

/-- Insert a string into a list kept in strLe order. -/
def insertLe (x : String) : List String → List String
  | [] => [x]
  | y :: ys => if strLe x y then x :: y :: ys else y :: insertLe x ys

/-- Insertion sort by strLe, modelling the Python sorted builtin on strings. -/
def sortLe (l : List String) : List String := l.foldr insertLe []

/-- Distinct values of a list, sorted lexicographically: the model of
sorted(series.unique()) from the source. -/
def uniqueSorted (l : List String) : List String := sortLe l.dedup

/-- One row of the loaded CSV. String key columns State, County and
inundation_zone are always present; every numeric or industry column is
optional: none stands for a NaN cell (pandas parses empty cells as NA) or for a
column that the simpler dataset variant does not have at all. The three
industry lists model the columns impacted_indgrp_1..5, impacted_naics4_1..5 and
emp_naics4_1..5: position i of the list is column suffix i+1, and positions
beyond the list length count as absent. -/
structure Row where
  state : String
  county : String
  inundation_zone : String
  establishments : Option ℤ
  employment : Option ℤ
  wages_week : Option Frac
  sales_week : Option Frac
  county_establishments : Option ℤ
  county_employment : Option ℤ
  baEMP : Option ℤ
  impacted_indgrp : List (Option String)
  impacted_naics4 : List (Option ℤ)
  emp_naics4 : List (Option ℤ)
deriving DecidableEq

/-- Model of line 48 of the source: states = sorted(df[State].unique()). -/
def states (df : List Row) : List String := uniqueSorted (df.map Row.state)

/-- Model of lines 53 to 58: county candidates for a chosen state; the empty
string is the unset selection (the blank first entry of the select box), for
which the county box is empty and disabled. -/
def counties (df : List Row) (s : String) : List String :=
  if s = "" then [] else uniqueSorted ((df.filter (fun r => r.state == s)).map Row.county)

/-- Model of lines 62 to 68: inundation-type candidates once state and county
are both set. -/
def inundation_types (df : List Row) (s c : String) : List String :=
  if s = "" ∨ c = "" then []
  else uniqueSorted
    ((df.filter (fun r => r.state == s && r.county == c)).map Row.inundation_zone)

/-- Model of the filter at lines 75 to 79: rows matching the full selection
exactly, in dataset storage order. -/
def selection_rows (df : List Row) (s c z : String) : List Row :=
  df.filter (fun r => r.state == s && r.county == c && r.inundation_zone == z)

/-- Model of .iloc[0] at line 79: the first matching row; none models the
IndexError the source raises when no row matches. -/
def selection_data (df : List Row) (s c z : String) : Option Row :=
  (selection_rows df s c z).head?

/-- Model of the Python int(cell) conversion: fails on a missing column
(KeyError) and on a NaN cell (ValueError), both rendered as none. -/
def requireInt : Option ℤ → Except String ℤ
  | some n => Except.ok n
  | none => Except.error ("missing numeric value")

/-- The numeric fields read out of the resolved row at lines 82 to 88. The
wages and sales cells are read without int conversion, so a missing cell there
stays NaN (none) instead of failing. -/
structure ImpactInputs where
  establishments : ℤ
  employment : ℤ
  wages_week : Option Frac
  sales_week : Option Frac
  county_establishments : ℤ
  county_employment : ℤ
  total_emp_in_zone : ℤ
deriving DecidableEq

/-- Model of lines 82 to 88 of the source: extraction of the numeric columns
from the resolved row, in source order, failing like the int conversions do on
an absent value. -/
def extractInputs (r : Row) : Except String ImpactInputs :=
  (requireInt r.establishments).bind fun e =>
  (requireInt r.employment).bind fun emp =>
  (requireInt r.county_establishments).bind fun ce =>
  (requireInt r.county_employment).bind fun cemp =>
  (requireInt r.baEMP).map fun b =>
  ⟨e, emp, r.wages_week, r.sales_week, ce, cemp, b⟩

/-- Model of the guarded percentage formula of lines 91, 92 and 123:
round((num / den) * 100) if den > 0 else 0, in Python float arithmetic. -/
def pctOf (num den : ℤ) : ℤ :=
  if 0 < den then pyRound0 (floatMul (intDivFloat num den) ⟨100, 1⟩) else 0

/-- The four impact figures of lines 91 to 94. The two money figures are
optional because a NaN wages or sales cell propagates to a NaN result. -/
structure Impact where
  percent_establishments : ℤ
  percent_employment : ℤ
  lost_wages_millions : Option Frac
  lost_sales_millions : Option Frac
deriving DecidableEq

/-- Model of lines 91 to 94 of the source, in exact Python float arithmetic. -/
def computeImpact (i : ImpactInputs) : Impact :=
  ⟨pctOf i.establishments i.county_establishments,
   pctOf i.employment i.county_employment,
   i.wages_week.map (fun w => pyRound1 (floatDiv w ⟨1000000, 1⟩)),
   i.sales_week.map (fun w => pyRound1 (floatDiv w ⟨1000000, 1⟩))⟩

/-- The data content of one row of the industry table built at line 124:
the displayed rank (the loop index), the NAICS code, the group label and the
employment percentage. -/
structure IndustryRow where
  rank : ℕ
  naics_code : ℤ
  ind_group : String
  emp_percent : ℤ
deriving DecidableEq

/-- Access of slot column i of the three industry fields: position i of the
list, absent when the list is shorter. -/
def slotGet {α : Type} : List (Option α) → ℕ → Option α
  | [], _ => none
  | x :: _, 0 => x
  | _ :: xs, n + 1 => slotGet xs n

/-- Model of the loop body of lines 118 to 124 over a list of zero-based slot
indices (the source iterates i in range(1, 6) over column suffixes; index i
here is column suffix i+1, which is also the displayed rank). A slot whose
group label is NA is skipped; a populated slot whose NAICS or employment cell
is NA fails like int(nan) does. -/
def rankLoop (t : ℤ) (r : Row) : List ℕ → Except String (List IndustryRow)
  | [] => Except.ok []
  | i :: is =>
    match slotGet r.impacted_indgrp i with
    | none => rankLoop t r is
    | some g =>
      match slotGet r.impacted_naics4 i, slotGet r.emp_naics4 i with
      | some naics, some emp =>
        (rankLoop t r is).map (fun rest => ⟨i + 1, naics, g, pctOf emp t⟩ :: rest)
      | some _, none => Except.error ("missing numeric value")
      | none, _ => Except.error ("missing numeric value")

/-- Model of the full industry-table loop at lines 118 to 124: iterate the five
slots in fixed order. t is total_emp_in_zone from line 88. -/
def table_rows (t : ℤ) (r : Row) : Except String (List IndustryRow) :=
  rankLoop t r (List.range 5)

/-- The state-abbreviation table of line 166 of the source. -/
def state_abbreviations : List (String × String) :=
  [("Alabama", "AL"), ("Mississippi", "MS")]

/-- Model of line 167: dictionary get with default empty string. -/
def state_abbr (state : String) : String :=
  (state_abbreviations.lookup state).getD ""

/-- Replace every occurrence of pat in a character list by rep, scanning left
to right and resuming after each replacement, with enough fuel; the semantics
of the Python str.replace. -/
def replAux (pat rep : List Char) : ℕ → List Char → List Char
  | 0, s => s
  | _ + 1, [] => []
  | n + 1, c :: cs =>
    if pat.isPrefixOf (c :: cs) then rep ++ replAux pat rep n ((c :: cs).drop pat.length)
    else c :: replAux pat rep n cs

/-- Model of line 98 of the source: county.replace(" County", ""), which
removes every occurrence of the substring, not only a trailing one. -/
def display_county (county : String) : String :=
  String.mk (replAux (" County".data) [] county.data.length county.data)

/-- Model of line 168: keep exactly the digit characters of the category label.
The Python str.isdigit also accepts some non-ASCII digit characters; for the
ASCII labels of this dataset the two coincide. -/
def slosh_cat_num (inundation : String) : String :=
  String.mk (inundation.data.filter Char.isDigit)

/-- Model of line 169 of the source: the derived map-asset file name. -/
def image_name (state county inundation : String) : String :=
  display_county county ++ "_" ++ state_abbr state ++ "_cat" ++ slosh_cat_num inundation
    ++ ".jpg"

/-- Modelled from the spec: the transformation the specification describes for
the county part of the asset name, stripping one trailing literal suffix
" County" and nothing else. Stated only to compare against display_county,
which is what the code actually does. -/
def specStripCountySuffix (county : String) : String :=
  if (" County".data).isSuffixOf county.data
  then String.mk (county.data.take (county.data.length - 7))
  else county

/-- True when the pattern occurs as a contiguous sublist; used to delimit when
replace-all and trailing-suffix stripping agree. Intended for nonempty pat. -/
def hasOccur (pat : List Char) : List Char → Bool
  | [] => false
  | c :: cs => pat.isPrefixOf (c :: cs) || hasOccur pat cs

/-- Decidable equality of Except results, for evaluating pipeline outcomes. -/
instance {e a : Type} [DecidableEq e] [DecidableEq a] : DecidableEq (Except e a) := by
  intro x y
  cases x <;> cases y
  case error.error u v =>
    exact if h : u = v then Decidable.isTrue (by rw [h])
      else Decidable.isFalse (fun hh => h (by injection hh))
  case error.ok u v => exact Decidable.isFalse (fun hh => Except.noConfusion hh)
  case ok.error u v => exact Decidable.isFalse (fun hh => Except.noConfusion hh)
  case ok.ok u v =>
    exact if h : u = v then Decidable.isTrue (by rw [h])
      else Decidable.isFalse (fun hh => h (by injection hh))

/-- The three structured outputs the source renders for a completed selection:
the impact figures, the industry table content and the asset name. -/
structure Output where
  impact : Impact
  industries : List IndustryRow
  image : String
deriving DecidableEq

/-- The full per-request computation of the source for a selection over the
loaded dataset: the gate at line 73 (all three selections non-empty, the empty
string being the blank select-box entry), resolution at lines 75 to 79 (an
unmatched selection raises IndexError at .iloc[0]), numeric extraction at
lines 82 to 88, the impact figures, the industry table and the asset name. -/
def runPipeline (df : List Row) (s c z : String) : Except String Output :=
  if s ≠ "" ∧ c ≠ "" ∧ z ≠ "" then
    match selection_data df s c z with
    | none => Except.error ("IndexError")
    | some row =>
      (extractInputs row).bind fun inp =>
        (table_rows inp.total_emp_in_zone row).map fun inds =>
          ⟨computeImpact inp, inds, image_name s c z⟩
  else Except.error ("incomplete selection")

/-- Boolean success test for Except results. -/
def isOkE {α : Type} : Except String α → Bool
  | Except.ok _ => true
  | Except.error _ => false

/-- A rich-variant row: the Scenario A figures of the spec, with the Scenario E
industry slots (rank 1 Retail, rank 2 absent, rank 3 Food Services). -/
def rowMobile3 : Row :=
  ⟨"Alabama", "Mobile County", "Category 3",
   some 120, some 900, some ⟨350000, 1⟩, some ⟨900000, 1⟩,
   some 1000, some 9000, some 100,
   [some "Retail", none, some "Food Services", none, none],
   [some 4400, none, some 7200, none, none],
   [some 10, none, some 20, none, none]⟩

/-- A second row carrying the same natural key as rowMobile3 but different
figures, to exercise the first-match policy on duplicate keys. -/
def rowMobile3Dup : Row :=
  ⟨"Alabama", "Mobile County", "Category 3",
   some 55, some 300, some ⟨120000, 1⟩, some ⟨340000, 1⟩,
   some 1000, some 9000, some 90,
   [some "Construction", none, none, none, none],
   [some 2360, none, none, none, none],
   [some 12, none, none, none, none]⟩

/-- A rich-variant row with a different key, for the candidate-list witnesses. -/
def rowBaldwin1 : Row :=
  ⟨"Alabama", "Baldwin County", "Category 1",
   some 40, some 260, some ⟨90000, 1⟩, some ⟨150000, 1⟩,
   some 800, some 5000, some 60,
   [some "Retail", none, none, none, none],
   [some 4400, none, none, none, none],
   [some 30, none, none, none, none]⟩

/-- A simple-variant row: only the SLOSH zone label and the five shared numeric
columns exist; the county denominators, the zone-employment total and the
industry slots are absent. -/
def simpleVariantRow : Row :=
  ⟨"Mississippi", "Harrison County", "Category 1",
   some 50, some 400, some ⟨100000, 1⟩, some ⟨200000, 1⟩,
   none, none, none, [], [], []⟩

/-- A rich-variant row whose county_establishments cell alone is absent. -/
def noCountyDenomRow : Row :=
  ⟨"Alabama", "Mobile County", "Category 3",
   some 120, some 900, some ⟨350000, 1⟩, some ⟨900000, 1⟩,
   none, some 9000, some 100,
   [some "Retail", none, some "Food Services", none, none],
   [some 4400, none, some 7200, none, none],
   [some 10, none, some 20, none, none]⟩

/-- The two-row sample dataset used by the witnesses. -/
def sampleDf : List Row := [rowMobile3, rowBaldwin1]

/-- A dataset in which the fully specified key matches two rows. -/
def dupDf : List Row := [rowMobile3, rowMobile3Dup]

/-- The Scenario A record of the spec as extracted impact inputs. -/
def scenarioA : ImpactInputs :=
  ⟨120, 900, some ⟨350000, 1⟩, some ⟨900000, 1⟩, 1000, 9000, 100⟩

/-- The Scenario B record: county_establishments equal to zero. -/
def scenarioB : ImpactInputs :=
  ⟨120, 900, some ⟨350000, 1⟩, some ⟨900000, 1⟩, 0, 9000, 100⟩

/-! Helper lemmas. -/

lemma strLeAux_total : ∀ as bs, strLeAux as bs = true ∨ strLeAux bs as = true := by
  intro as
  induction as with
  | nil => intro bs; left; rfl
  | cons a as ih =>
    intro bs
    cases bs with
    | nil => right; rfl
    | cons b bs =>
      by_cases h1 : a.toNat < b.toNat
      · left; simp [strLeAux, h1]
      · by_cases h2 : b.toNat < a.toNat
        · right; simp [strLeAux, h1, h2]
        · rcases ih bs with h | h
          · left; simp [strLeAux, h1, h2, h]
          · right; simp [strLeAux, h1, h2, h]

lemma strLeAux_trans : ∀ as bs cs, strLeAux as bs = true → strLeAux bs cs = true →
    strLeAux as cs = true := by
  intro as
  induction as with
  | nil => intro bs cs _ _; rfl
  | cons a as ih =>
    intro bs cs h1 h2
    cases bs with
    | nil => simp [strLeAux] at h1
    | cons b bs =>
      cases cs with
      | nil => simp [strLeAux] at h2
      | cons c cs =>
        simp only [strLeAux] at h1 h2 ⊢
        by_cases hab : a.toNat < b.toNat
        · by_cases hbc : b.toNat < c.toNat
          · have hac : a.toNat < c.toNat := Nat.lt_trans hab hbc
            simp [hac]
          · by_cases hcb : c.toNat < b.toNat
            · simp [hbc, hcb] at h2
            · have hac : a.toNat < c.toNat := by omega
              simp [hac]
        · by_cases hba : b.toNat < a.toNat
          · simp [hab, hba] at h1
          · simp only [if_neg hab, if_neg hba] at h1
            by_cases hbc : b.toNat < c.toNat
            · have hac : a.toNat < c.toNat := by omega
              simp [hac]
            · by_cases hcb : c.toNat < b.toNat
              · simp [hbc, hcb] at h2
              · simp only [if_neg hbc, if_neg hcb] at h2
                have hac1 : ¬ a.toNat < c.toNat := by omega
                have hac2 : ¬ c.toNat < a.toNat := by omega
                simp only [if_neg hac1, if_neg hac2]
                exact ih bs cs h1 h2

lemma strLe_total (a b : String) : strLe a b = true ∨ strLe b a = true :=
  strLeAux_total a.data b.data

lemma strLe_trans {a b c : String} (h1 : strLe a b = true) (h2 : strLe b c = true) :
    strLe a c = true :=
  strLeAux_trans a.data b.data c.data h1 h2

lemma mem_insertLe {y x : String} {l : List String} :
    y ∈ insertLe x l ↔ y = x ∨ y ∈ l := by
  induction l with
  | nil => simp [insertLe]
  | cons z zs ih =>
    by_cases h : strLe x z
    · simp [insertLe, h]
    · simp only [insertLe, if_neg h, List.mem_cons, ih]
      tauto

lemma perm_insertLe (x : String) (l : List String) : List.Perm (insertLe x l) (x :: l) := by
  induction l with
  | nil => exact List.Perm.refl _
  | cons z zs ih =>
    by_cases h : strLe x z
    · simp [insertLe, h]
    · simp only [insertLe, if_neg h]
      exact (ih.cons z).trans (List.Perm.swap x z zs)

lemma pairwise_insertLe {x : String} {l : List String}
    (h : l.Pairwise (fun a b => strLe a b = true)) :
    (insertLe x l).Pairwise (fun a b => strLe a b = true) := by
  induction l with
  | nil => simp [insertLe]
  | cons z zs ih =>
    rcases List.pairwise_cons.mp h with ⟨hz, hzs⟩
    by_cases hxz : strLe x z
    · simp only [insertLe, if_pos hxz]
      refine List.Pairwise.cons ?_ h
      intro w hw
      rcases List.mem_cons.mp hw with rfl | hw
      · exact hxz
      · exact strLe_trans hxz (hz w hw)
    · have hzx : strLe z x = true := (strLe_total x z).resolve_left hxz
      simp only [insertLe, if_neg hxz]
      refine List.Pairwise.cons ?_ (ih hzs)
      intro w hw
      rcases mem_insertLe.mp hw with rfl | hw
      · exact hzx
      · exact hz w hw

lemma sorted_sortLe (l : List String) :
    (sortLe l).Pairwise (fun a b => strLe a b = true) := by
  induction l with
  | nil => simp [sortLe]
  | cons x xs ih => exact pairwise_insertLe ih

lemma perm_sortLe (l : List String) : List.Perm (sortLe l) l := by
  induction l with
  | nil => exact List.Perm.refl _
  | cons x xs ih => exact (perm_insertLe x (sortLe xs)).trans (ih.cons x)

lemma mem_sortLe {x : String} {l : List String} : x ∈ sortLe l ↔ x ∈ l :=
  (perm_sortLe l).mem_iff

lemma uniqueSorted_pairwise (l : List String) :
    (uniqueSorted l).Pairwise (fun a b => strLe a b = true) :=
  sorted_sortLe l.dedup

lemma uniqueSorted_nodup (l : List String) : (uniqueSorted l).Nodup :=
  ((perm_sortLe l.dedup).nodup_iff).mpr (List.nodup_dedup l)

lemma mem_uniqueSorted {x : String} {l : List String} : x ∈ uniqueSorted l ↔ x ∈ l := by
  rw [uniqueSorted, mem_sortLe, List.mem_dedup]

lemma rndTiesEven_nonneg {f : Frac} (hn : 0 ≤ f.num) (hd : 0 < f.den) :
    0 ≤ rndTiesEven f := by
  have h0 : 0 ≤ f.num.fdiv f.den := Int.fdiv_nonneg hn (le_of_lt hd)
  unfold rndTiesEven
  split_ifs <;> omega

lemma pow2F_num_pos (z : ℤ) : 0 < (pow2F z).num := by
  unfold pow2F
  split_ifs with h
  · show (0 : ℤ) < ((2 ^ z.toNat : ℕ) : ℤ)
    positivity
  · show (0 : ℤ) < 1
    norm_num

lemma pow2F_den_pos (z : ℤ) : 0 < (pow2F z).den := by
  unfold pow2F
  split_ifs with h
  · show (0 : ℤ) < 1
    norm_num
  · show (0 : ℤ) < ((2 ^ (-z).toNat : ℕ) : ℤ)
    positivity

lemma mulF_num_nonneg {a b : Frac} (ha : 0 ≤ a.num) (hb : 0 ≤ b.num) :
    0 ≤ (mulF a b).num :=
  mul_nonneg ha hb

lemma mulF_den_pos {a b : Frac} (ha : 0 < a.den) (hb : 0 < b.den) :
    0 < (mulF a b).den :=
  mul_pos ha hb

lemma floatScale_nonneg {f : Frac} (hn : 0 ≤ f.num) (hd : 0 < f.den) :
    0 ≤ (floatScale f).num ∧ 0 < (floatScale f).den := by
  have hm : 0 ≤ rndTiesEven (mulF f (pow2F (52 - ilog2F f))) :=
    rndTiesEven_nonneg (mulF_num_nonneg hn (le_of_lt (pow2F_num_pos _)))
      (mulF_den_pos hd (pow2F_den_pos _))
  unfold floatScale
  split_ifs with h
  · refine ⟨hm, ?_⟩
    show (0 : ℤ) < ((2 ^ (52 - ilog2F f).toNat : ℕ) : ℤ)
    positivity
  · refine ⟨mul_nonneg hm ?_, ?_⟩
    · show (0 : ℤ) ≤ ((2 ^ (ilog2F f - 52).toNat : ℕ) : ℤ)
      positivity
    · show (0 : ℤ) < 1
      norm_num

lemma floatRound_nonneg {f : Frac} (hn : 0 ≤ f.num) (hd : 0 < f.den) :
    0 ≤ (floatRound f).num ∧ 0 < (floatRound f).den := by
  unfold floatRound
  split_ifs with h1 h2
  · exact ⟨le_refl 0, one_pos⟩
  · exact absurd h2 (not_lt.mpr hn)
  · exact floatScale_nonneg hn hd

lemma intDivFloat_nonneg {a b : ℤ} (ha : 0 ≤ a) (hb : 0 < b) :
    0 ≤ (intDivFloat a b).num ∧ 0 < (intDivFloat a b).den := by
  have hcond : ¬ ((⟨b, 1⟩ : Frac).num < 0) := not_lt.mpr (le_of_lt hb)
  have hdf : divF ⟨a, 1⟩ ⟨b, 1⟩ = ⟨a * 1, 1 * b⟩ := by
    unfold divF
    rw [if_neg hcond]
  unfold intDivFloat
  rw [hdf]
  refine floatRound_nonneg ?_ ?_
  · show (0 : ℤ) ≤ a * 1
    omega
  · show (0 : ℤ) < 1 * b
    omega

lemma pctOf_nonneg {n d : ℤ} (hn : 0 ≤ n) : 0 ≤ pctOf n d := by
  unfold pctOf
  split_ifs with h
  · obtain ⟨h1, h2⟩ := intDivFloat_nonneg hn h
    have hq := floatRound_nonneg (f := mulF (intDivFloat n d) ⟨100, 1⟩)
      (mulF_num_nonneg h1 (by norm_num)) (mulF_den_pos h2 (by norm_num))
    exact rndTiesEven_nonneg hq.1 hq.2
  · exact le_refl 0

lemma replAux_no_occur (pat rep : List Char) :
    ∀ (n : ℕ) (s : List Char), hasOccur pat s = false → replAux pat rep n s = s := by
  intro n
  induction n with
  | zero => intro s _; rfl
  | succ n ih =>
    intro s h
    cases s with
    | nil => rfl
    | cons c cs =>
      simp only [hasOccur, Bool.or_eq_false_iff] at h
      simp [replAux, h.1, ih cs h.2]

lemma rankLoop_map_rank (t : ℤ) (r : Row) :
    ∀ (is : List ℕ) (l : List IndustryRow), rankLoop t r is = Except.ok l →
      l.map IndustryRow.rank
        = (is.filter (fun i => (slotGet r.impacted_indgrp i).isSome)).map
            (fun i => i + 1) := by
  intro is
  induction is with
  | nil =>
    intro l h
    simp only [rankLoop] at h
    injection h with h
    subst h
    simp
  | cons i is ih =>
    intro l h
    cases hg : slotGet r.impacted_indgrp i with
    | none =>
      simp only [rankLoop, hg] at h
      rw [List.filter_cons]
      simp only [hg, Option.isSome_none, Bool.false_eq_true, if_false]
      exact ih l h
    | some g =>
      simp only [rankLoop, hg] at h
      cases hn : slotGet r.impacted_naics4 i with
      | none =>
        rw [hn] at h
        simp at h
      | some naics =>
        rw [hn] at h
        cases he : slotGet r.emp_naics4 i with
        | none =>
          rw [he] at h
          simp at h
        | some emp =>
          rw [he] at h
          cases hr : rankLoop t r is with
          | error e =>
            rw [hr] at h
            simp [Except.map] at h
          | ok rest =>
            rw [hr] at h
            simp only [Except.map] at h
            injection h with h
            subst h
            rw [List.filter_cons]
            simp only [hg, Option.isSome_some, if_true]
            simp [ih rest hr]

/-! Claim theorems. -/

/-- C1, amended. For the percentage figures of computeImpact (source lines 91
and 92): when the county denominator is positive, the figure is the Python
rounding of the float computation (num / den) * 100; when the denominator is
zero or negative, the figure is 0 (in particular a zero denominator yields 0
regardless of the numerator); with nonnegative numerators the figures are never
negative, and they are integers, so no NaN and no division by zero can surface.
The amendment: when county_establishments is absent (missing column or NA
cell), computeImpact does not return 0 as the claim states; the int conversion
at source line 86 fails first, so extraction of the resolved record errors and
no impact value at all is produced. -/
theorem c1_impact_guards (i : ImpactInputs) (r : Row) :
    (0 < i.county_establishments →
      (computeImpact i).percent_establishments
        = pyRound0 (floatMul (intDivFloat i.establishments i.county_establishments)
            ⟨100, 1⟩))
  ∧ (i.county_establishments ≤ 0 → (computeImpact i).percent_establishments = 0)
  ∧ (0 < i.county_employment →
      (computeImpact i).percent_employment
        = pyRound0 (floatMul (intDivFloat i.employment i.county_employment) ⟨100, 1⟩))
  ∧ (i.county_employment ≤ 0 → (computeImpact i).percent_employment = 0)
  ∧ (0 ≤ i.establishments → 0 ≤ (computeImpact i).percent_establishments)
  ∧ (0 ≤ i.employment → 0 ≤ (computeImpact i).percent_employment)
  ∧ (r.county_establishments = none → isOkE (extractInputs r) = false) := by
  refine ⟨?_, ?_, ?_, ?_, ?_, ?_, ?_⟩
  · intro h
    show pctOf i.establishments i.county_establishments = _
    unfold pctOf
    rw [if_pos h]
  · intro h
    show pctOf i.establishments i.county_establishments = 0
    unfold pctOf
    rw [if_neg (not_lt.mpr h)]
  · intro h
    show pctOf i.employment i.county_employment = _
    unfold pctOf
    rw [if_pos h]
  · intro h
    show pctOf i.employment i.county_employment = 0
    unfold pctOf
    rw [if_neg (not_lt.mpr h)]
  · intro h
    exact pctOf_nonneg h
  · intro h
    exact pctOf_nonneg h
  · intro h
    cases h1 : r.establishments <;> cases h2 : r.employment <;>
      simp [extractInputs, requireInt, isOkE, Except.bind, h, h1, h2]

/-- Witness for C1 at Scenario A and Scenario B inputs and at a row with an
absent county_establishments cell. -/
theorem c1_witness :
    (computeImpact scenarioB).percent_establishments = 0
  ∧ (computeImpact scenarioA).percent_establishments
      = pyRound0 (floatMul (intDivFloat 120 1000) ⟨100, 1⟩)
  ∧ isOkE (extractInputs noCountyDenomRow) = false :=
  ⟨(c1_impact_guards scenarioB noCountyDenomRow).2.1 (by decide),
   (c1_impact_guards scenarioA noCountyDenomRow).1 (by decide),
   (c1_impact_guards scenarioA noCountyDenomRow).2.2.2.2.2.2 (by decide)⟩

/-- Counterexample for C1 as stated: for a resolved record whose
county_establishments is absent, the claim says pctEstablishments is 0, but the
program fails at the int conversion of line 86 before any impact value: the
pipeline errors instead of returning a result with percentage 0. -/
theorem c1_counterexample :
    runPipeline [noCountyDenomRow] "Alabama" "Mobile County" "Category 3"
      = Except.error ("missing numeric value") := by decide

/-- C2, amended. On the Scenario A record, the source (lines 91 to 94, Python
float arithmetic) yields pctEstablishments = 12 and pctEmployment = 10 as the
claim states, and lostSalesMillions is the double 0.9; but lostWagesMillions is
the double 0.3, not 0.4: the double nearest to 350000 / 1000000 is
6305039478318694 / 2^54, slightly below 0.35, so round(x, 1) rounds down. -/
theorem c2_impact_values :
    (computeImpact scenarioA).percent_establishments = 12
  ∧ (computeImpact scenarioA).percent_employment = 10
  ∧ optEqF (computeImpact scenarioA).lost_wages_millions (some (floatRound ⟨3, 10⟩))
  ∧ optEqF (computeImpact scenarioA).lost_sales_millions (some (floatRound ⟨9, 10⟩))
  ∧ ¬ eqF (floatRound ⟨3, 10⟩) (floatRound ⟨2, 5⟩) := by decide

/-- Counterexample for C2 as stated: the lost-wages figure of the Scenario A
record equals neither the double 0.4 nor the exact value 2/5; the claimed 0.4
(rounded from 0.35) is not what the float computation of line 93 produces. -/
theorem c2_counterexample :
    (computeImpact scenarioA).lost_wages_millions
        = some (pyRound1 (floatDiv ⟨350000, 1⟩ ⟨1000000, 1⟩))
  ∧ ¬ optEqF (computeImpact scenarioA).lost_wages_millions (some (floatRound ⟨2, 5⟩))
  ∧ ¬ optEqF (computeImpact scenarioA).lost_wages_millions (some ⟨2, 5⟩) := by decide

/-- C3. For a fully specified selection (all three parts non-empty), resolution
fails exactly when zero rows match: the first-row access of line 79 has no row
to return (the none case, the failure the spec calls NotFound; in the running
program it surfaces as the IndexError of .iloc[0] on an empty frame), and it
cannot fail in any other situation, nor succeed on an empty match. -/
theorem c3_resolve_notfound (df : List Row) (s c z : String)
    (_hs : s ≠ "") (_hc : c ≠ "") (_hz : z ≠ "") :
    selection_data df s c z = none ↔ selection_rows df s c z = [] := by
  unfold selection_data
  exact List.head?_eq_none_iff

/-- Witness for C3: a concrete fully specified selection matching no row of the
sample dataset resolves to none. -/
theorem c3_witness :
    selection_data sampleDf "Alabama" "Mobile County" "Category 1" = none :=
  (c3_resolve_notfound sampleDf "Alabama" "Mobile County" "Category 1" (by decide)
    (by decide) (by decide)).mpr (by decide)

/-- C4. The industry table loop (lines 118 to 124): on a successful run the
displayed ranks are exactly the original one-based slot indices of the
populated slots, in increasing slot order - so a slot with an absent group
label is skipped without renumbering the later ranks, at most 5 entries are
produced, and populated slots are never reordered. On the Scenario E slot
layout (rank 1 Retail, rank 2 absent, rank 3 Food Services) the displayed
ranks are 1 and 3, in that order. -/
theorem c4_rank_integrity :
    (∀ (t : ℤ) (r : Row) (l : List IndustryRow), table_rows t r = Except.ok l →
        l.map IndustryRow.rank
          = ((List.range 5).filter (fun i => (slotGet r.impacted_indgrp i).isSome)).map
              (fun i => i + 1)
      ∧ l.length ≤ 5
      ∧ (l.map IndustryRow.rank).Pairwise (· < ·))
  ∧ (table_rows 100 rowMobile3).map (fun l => l.map IndustryRow.rank)
      = Except.ok [1, 3] := by
  constructor
  · intro t r l h
    have hmr := rankLoop_map_rank t r (List.range 5) l h
    refine ⟨hmr, ?_, ?_⟩
    · have hlen : l.length = (l.map IndustryRow.rank).length := (List.length_map _ _).symm
      rw [hlen, hmr, List.length_map]
      calc ((List.range 5).filter _).length ≤ (List.range 5).length :=
            List.length_filter_le _ _
        _ = 5 := List.length_range 5
    · rw [hmr]
      refine List.pairwise_map.mpr ?_
      refine List.Pairwise.imp ?_ (List.Pairwise.filter _
        (by decide : (List.range 5).Pairwise (· < ·)))
      intro a b hab
      omega
  · decide

/-- Witness for C4 at the Scenario E row. -/
theorem c4_witness :
    (([⟨1, 4400, "Retail", 10⟩, ⟨3, 7200, "Food Services", 20⟩] : List IndustryRow).map
        IndustryRow.rank
      = ((List.range 5).filter
          (fun i => (slotGet rowMobile3.impacted_indgrp i).isSome)).map (fun i => i + 1))
  ∧ (([⟨1, 4400, "Retail", 10⟩, ⟨3, 7200, "Food Services", 20⟩] : List IndustryRow).length
      ≤ 5) := by
  have h := c4_rank_integrity.1 100 rowMobile3
    [⟨1, 4400, "Retail", 10⟩, ⟨3, 7200, "Food Services", 20⟩] (by decide)
  exact ⟨h.1, h.2.1⟩

/-- C5, amended. The asset name (lines 98 and 166 to 170) is
"{county2}_{abbr}_cat{digits}.jpg" where abbr is the table lookup with empty
default and digits are the digit characters of the category label; but county2
is the county with EVERY occurrence of the substring " County" removed (the
replace of line 98), not only a trailing suffix, and the code has no
stripCountySuffix option: the removal is unconditional. When " County" does not
occur at all the county passes through unchanged, so for ordinary county names,
where it occurs once at the end, the removal coincides with trailing-suffix
stripping; Scenario C yields Mobile_AL_cat3.jpg. -/
theorem c5_asset_name (s c z : String) :
    (image_name s c z
      = display_county c ++ "_" ++ state_abbr s ++ "_cat" ++ slosh_cat_num z ++ ".jpg")
  ∧ (hasOccur (" County".data) c.data = false → display_county c = c)
  ∧ image_name "Alabama" "Mobile County" "Category 3" = "Mobile_AL_cat3.jpg" := by
  refine ⟨rfl, ?_, by decide⟩
  intro h
  unfold display_county
  rw [replAux_no_occur _ _ _ _ h]

/-- Witness for C5: a county without the substring passes through unchanged,
and the Scenario C name is derived. -/
theorem c5_witness :
    display_county "Annexville" = "Annexville"
  ∧ image_name "Alabama" "Mobile County" "Category 3" = "Mobile_AL_cat3.jpg" :=
  ⟨(c5_asset_name "Alabama" "Annexville" "Category 3").2.1 (by decide),
   (c5_asset_name "Alabama" "Annexville" "Category 3").2.2⟩

/-- Counterexample for C5 as stated: for the county "Mobile County Annex" the
claim form with a trailing-suffix strip leaves the county unchanged (it does
not end in " County"), but the code removes the inner " County" occurrence,
producing Mobile Annex_AL_cat3.jpg instead. -/
theorem c5_counterexample :
    image_name "Alabama" "Mobile County Annex" "Category 3"
      ≠ specStripCountySuffix "Mobile County Annex" ++ "_" ++ state_abbr "Alabama"
          ++ "_cat" ++ slosh_cat_num "Category 3" ++ ".jpg" := by decide

/-- C6, amended. Numeric extraction of a resolved record (lines 82 to 88)
succeeds exactly when all five int-converted columns are present; the simpler
dataset variant, which lacks county_establishments, county_employment and
baEMP, therefore fails extraction instead of being treated by the zero-result
policies, contrary to the claim. -/
theorem c6_extract_needs_rich_columns (r : Row) :
    isOkE (extractInputs r) = true ↔
      (r.establishments.isSome = true ∧ r.employment.isSome = true
       ∧ r.county_establishments.isSome = true ∧ r.county_employment.isSome = true
       ∧ r.baEMP.isSome = true) := by
  cases h1 : r.establishments <;> cases h2 : r.employment <;>
    cases h3 : r.county_establishments <;> cases h4 : r.county_employment <;>
      cases h5 : r.baEMP <;>
        simp [extractInputs, requireInt, isOkE, Except.bind, Except.map, h1, h2, h3, h4, h5]

/-- Witness for C6: the simple-variant row fails extraction. -/
theorem c6_witness : isOkE (extractInputs simpleVariantRow) = false := by
  cases hh : isOkE (extractInputs simpleVariantRow) with
  | false => rfl
  | true =>
    have h := ((c6_extract_needs_rich_columns simpleVariantRow).mp hh).2.2.1
    exact absurd h (by decide)

/-- Counterexample for C6 as stated: a dataset of the simple column set is not
processed without error; the pipeline fails at the numeric extraction. -/
theorem c6_counterexample :
    runPipeline [simpleVariantRow] "Mississippi" "Harrison County" "Category 1"
      = Except.error ("missing numeric value") := by decide

/-- C7. When the full-selection filter matches more than one row, the first-row
access of line 79 returns the first match in dataset storage order, a success:
no ambiguity error of any kind is raised. -/
theorem c7_first_of_matches (df : List Row) (s c z : String) (r : Row)
    (rest : List Row) (h : selection_rows df s c z = r :: rest) (_hrest : rest ≠ []) :
    selection_data df s c z = some r := by
  unfold selection_data
  rw [h]
  rfl

/-- Witness for C7: a dataset whose key matches two rows resolves to the first. -/
theorem c7_witness :
    selection_data dupDf "Alabama" "Mobile County" "Category 3" = some rowMobile3 :=
  c7_first_of_matches dupDf "Alabama" "Mobile County" "Category 3" rowMobile3
    [rowMobile3Dup] (by decide) (by decide)

/-- C8. The three candidate lists (lines 48, 54, 64): each is sorted in the
lexicographic code-point order of the Python sorted builtin and duplicate-free;
the county and category lists are empty while their selection prefix is unset
(empty string); and each member is carried by at least one record matching the
selection prefix - states by some record, counties by some record of the
selected state, categories by some record of the selected state and county. -/
theorem c8_candidates (df : List Row) (s c x : String) :
    ((states df).Pairwise (fun a b => strLe a b = true)
      ∧ (states df).Nodup
      ∧ (x ∈ states df ↔ ∃ r ∈ df, r.state = x))
  ∧ (counties df "" = []
      ∧ (counties df s).Pairwise (fun a b => strLe a b = true)
      ∧ (counties df s).Nodup
      ∧ (s ≠ "" → (x ∈ counties df s ↔ ∃ r ∈ df, r.state = s ∧ r.county = x)))
  ∧ (inundation_types df "" c = []
      ∧ inundation_types df s "" = []
      ∧ (inundation_types df s c).Pairwise (fun a b => strLe a b = true)
      ∧ (inundation_types df s c).Nodup
      ∧ (s ≠ "" → c ≠ "" →
          (x ∈ inundation_types df s c ↔
            ∃ r ∈ df, r.state = s ∧ r.county = c ∧ r.inundation_zone = x))) := by
  refine ⟨⟨?_, ?_, ?_⟩, ⟨?_, ?_, ?_, ?_⟩, ⟨?_, ?_, ?_, ?_, ?_⟩⟩
  · exact uniqueSorted_pairwise _
  · exact uniqueSorted_nodup _
  · rw [states, mem_uniqueSorted]
    exact List.mem_map
  · simp [counties]
  · unfold counties
    split_ifs
    · simp
    · exact uniqueSorted_pairwise _
  · unfold counties
    split_ifs
    · simp
    · exact uniqueSorted_nodup _
  · intro hs
    rw [counties, if_neg hs, mem_uniqueSorted, List.mem_map]
    constructor
    · rintro ⟨r, hr, rfl⟩
      rcases List.mem_filter.mp hr with ⟨hrdf, hcond⟩
      exact ⟨r, hrdf, beq_iff_eq.mp hcond, rfl⟩
    · rintro ⟨r, hr, hst, rfl⟩
      exact ⟨r, List.mem_filter.mpr ⟨hr, beq_iff_eq.mpr hst⟩, rfl⟩
  · simp [inundation_types]
  · simp [inundation_types]
  · unfold inundation_types
    split_ifs
    · simp
    · exact uniqueSorted_pairwise _
  · unfold inundation_types
    split_ifs
    · simp
    · exact uniqueSorted_nodup _
  · intro hs hc
    rw [inundation_types, if_neg (by simp [hs, hc]), mem_uniqueSorted, List.mem_map]
    constructor
    · rintro ⟨r, hr, rfl⟩
      rcases List.mem_filter.mp hr with ⟨hrdf, hcond⟩
      have hcond2 : r.state = s ∧ r.county = c := by simpa using hcond
      exact ⟨r, hrdf, hcond2.1, hcond2.2, rfl⟩
    · rintro ⟨r, hr, hst, hco, rfl⟩
      refine ⟨r, List.mem_filter.mpr ⟨hr, ?_⟩, rfl⟩
      simp [hst, hco]

/-- Witness for C8: cascading consistency at the sample dataset. -/
theorem c8_witness :
    ("Mobile County" ∈ counties sampleDf "Alabama"
      ↔ ∃ r ∈ sampleDf, r.state = "Alabama" ∧ r.county = "Mobile County")
  ∧ ("Category 1" ∈ inundation_types sampleDf "Alabama" "Baldwin County"
      ↔ ∃ r ∈ sampleDf, r.state = "Alabama" ∧ r.county = "Baldwin County"
          ∧ r.inundation_zone = "Category 1") :=
  ⟨(c8_candidates sampleDf "Alabama" "x" "Mobile County").2.1.2.2.2 (by decide),
   (c8_candidates sampleDf "Alabama" "Baldwin County" "Category 1").2.2.2.2.2.2
     (by decide) (by decide)⟩

/-- C9. The whole per-request computation is a pure function of the dataset
and the three selection strings: two runs on equal inputs over an unchanged
dataset return equal results. -/
theorem c9_deterministic (dfa dfb : List Row) (sa sb ca cb za zb : String)
    (hdf : dfa = dfb) (hs : sa = sb) (hc : ca = cb) (hz : za = zb) :
    runPipeline dfa sa ca za = runPipeline dfb sb cb zb := by
  subst hdf
  subst hs
  subst hc
  subst hz
  rfl

/-- Witness for C9 at a concrete selection over the sample dataset. -/
theorem c9_witness :
    runPipeline sampleDf "Alabama" "Mobile County" "Category 3"
      = runPipeline sampleDf "Alabama" "Mobile County" "Category 3" :=
  c9_deterministic sampleDf sampleDf "Alabama" "Alabama" "Mobile County" "Mobile County"
    "Category 3" "Category 3" rfl rfl rfl rfl

/-- C10. The abbreviation table of line 166 holds exactly Alabama and
Mississippi, so any other state gets the empty abbreviation from the dictionary
get of line 167, and the derived asset name carries a double underscore. -/
theorem c10_abbr_table (s c z : String) (h1 : s ≠ "Alabama") (h2 : s ≠ "Mississippi") :
    state_abbreviations = [("Alabama", "AL"), ("Mississippi", "MS")]
  ∧ state_abbr s = ""
  ∧ image_name s c z = display_county c ++ "__cat" ++ slosh_cat_num z ++ ".jpg" := by
  have habbr : state_abbr s = "" := by
    unfold state_abbr state_abbreviations
    simp [List.lookup, beq_eq_false_iff_ne.mpr h1, beq_eq_false_iff_ne.mpr h2]
  refine ⟨rfl, habbr, ?_⟩
  have hlit : ("_" : String) ++ "_cat" = "__cat" := by decide
  have key : (display_county c ++ "_") ++ "_cat" = display_county c ++ "__cat" := by
    rw [String.append_assoc, hlit]
  unfold image_name
  rw [habbr, String.append_empty, key]

/-- Witness for C10 at the state Florida. -/
theorem c10_witness :
    state_abbr "Florida" = ""
  ∧ image_name "Florida" "Monroe County" "Category 2" = "Monroe__cat2.jpg" := by
  have h := c10_abbr_table "Florida" "Monroe County" "Category 2" (by decide) (by decide)
  refine ⟨h.2.1, ?_⟩
  rw [h.2.2]
  decide
